import Mathlib

/-
Verification of the Dexscreener analyzer utility
(src/app/dexscreener_app.py) against its specification.

The Python module is embedded shallowly:
  * JSON values of interest become structures of `Option`-typed fields
    (a key that may be absent is an `Option`);
  * numbers are exact decimals (`Decimal`, an integer over a power of
    ten), the value set of JSON number literals;
  * `float(...)` applied to a string becomes `pyFloatOfString`, a model
    of the Python `float` string parser over ASCII input — decimal
    literals with PEP 515 underscores, and the case-insensitive words
    inf/infinity/nan — returning `Option PyFloat` (`none` models the
    `ValueError` raised on a rejected string);
  * the `f"{x:.2f}"` format becomes `formatFixed2` with
    round-half-to-even, exact for the magnitudes exercised here;
  * raising code returns `Except`;
  * environment reads and the Telegram network call are passed in
    explicitly (`Env`, and a `net` function whose attempted calls are
    collected in a list, so that "no network call occurred" is the
    statement that the list is empty).
-/

namespace Dexscreener

/-- The nested base-token object of one pair; `name` and `address` keys may
be absent in the raw JSON, hence `Option`. -/
structure BaseToken where
  name : Option String
  address : Option String
deriving DecidableEq

/-- An exact decimal number, `num / 10 ^ exp`, kept unnormalized. This
represents the numeric values flowing through the analyzer (JSON
numbers and parsed `priceUsd` strings are decimal literals); using it
instead of `ℚ` keeps every operation kernel-computable. -/
structure Decimal where
  num : ℤ
  exp : ℕ
deriving DecidableEq

/-- The rational value a `Decimal` denotes. -/
def Decimal.toRat (d : Decimal) : ℚ := (d.num : ℚ) / (10 : ℚ) ^ d.exp

/-- The nested `volume` object of one pair; the `h24` key may be absent. -/
structure VolumeInfo where
  h24 : Option Decimal
deriving DecidableEq

/-- One entry of `RawMarketResponse.pairs`: the keys `baseToken`,
`priceUsd` and `volume` may each be absent. `priceUsd` is a
string-encoded decimal, `volume.h24` a JSON number. -/
structure RawPair where
  baseToken : Option BaseToken
  priceUsd : Option String
  volume : Option VolumeInfo
deriving DecidableEq

/-- The JSON-decoded body returned by the data source: a top-level
`pairs` ordered sequence. -/
structure RawMarketResponse where
  pairs : List RawPair
deriving DecidableEq

/-- The flat record built by the analyzer for one pair. -/
structure AnalyzedRecord where
  name : String
  ca : String
  description : String
deriving DecidableEq

/-! ### Model of Python `float(s)` on decimal literals -/

/-- Numeric value of a digit string (most significant first). -/
def digitsToNat (cs : List Char) : ℕ :=
  cs.foldl (fun acc c => 10 * acc + (c.toNat - 48)) 0

/-- Exponent digits after an optional sign: nonempty, all decimal. -/
def parseExpDigits (cs : List Char) : Option ℤ :=
  if cs ≠ [] ∧ cs.all Char.isDigit then some (digitsToNat cs : ℤ) else none

/-- The exponent part of a float literal, after the `e`/`E`. -/
def parseExponent (cs : List Char) : Option ℤ :=
  match cs with
  | '+' :: rest => parseExpDigits rest
  | '-' :: rest => (parseExpDigits rest).map Neg.neg
  | _ => parseExpDigits cs

/-- Scale a decimal by `10 ^ e` (the exponent part of a literal). -/
def Decimal.scale (d : Decimal) (e : ℤ) : Decimal :=
  if 0 ≤ e then { num := d.num * ((10 : ℕ) ^ e.toNat : ℕ), exp := d.exp }
  else { num := d.num, exp := d.exp + e.natAbs }

/-- Negate a decimal (the leading `-` of a literal). -/
def Decimal.neg (d : Decimal) : Decimal := { num := -d.num, exp := d.exp }

/-- A value Python `float(str)` can return: a finite number (kept as an
exact decimal) or one of the non-finite values `inf`, `-inf`, `nan`,
which `float` produces for the words inf/infinity/nan. A finite literal
is kept exact whatever its magnitude; rounding to the nearest binary
double — including the overflow of literals beyond the double range to
`inf` — is not modeled, and no theorem below inspects a value where
that approximation shows. -/
inductive PyFloat where
  | finite (d : Decimal)
  | inf
  | ninf
  | nan
deriving DecidableEq

/-- Negation of a Python float value (the leading `-` of the string);
`float("-nan")` is displayed `nan` like the positive one. -/
def PyFloat.neg : PyFloat → PyFloat
  | PyFloat.finite d => PyFloat.finite d.neg
  | PyFloat.inf => PyFloat.ninf
  | PyFloat.ninf => PyFloat.inf
  | PyFloat.nan => PyFloat.nan

/-- The mantissa `digits [. digits]` (at least one digit); returns its
value — the concatenated digits over `10 ^ (number of fraction
digits)` — and the unconsumed characters. -/
def parseMantissa (cs : List Char) : Option (Decimal × List Char) :=
  let intPart := cs.takeWhile Char.isDigit
  let rest1 := cs.dropWhile Char.isDigit
  match rest1 with
  | '.' :: rest2 =>
    let fracPart := rest2.takeWhile Char.isDigit
    let rest3 := rest2.dropWhile Char.isDigit
    if intPart.isEmpty ∧ fracPart.isEmpty then none
    else some ({ num := (digitsToNat (intPart ++ fracPart) : ℤ),
                 exp := fracPart.length }, rest3)
  | _ =>
    if intPart.isEmpty then none
    else some ({ num := (digitsToNat intPart : ℤ), exp := 0 }, rest1)

/-- ASCII whitespace stripped by Python `float`. -/
def isPySpace (c : Char) : Bool :=
  c = ' ' ∨ c = '\t' ∨ c = '\n' ∨ c = '\r' ∨ c = '\x0b' ∨ c = '\x0c'

/-- Unsigned float literal: mantissa with optional exponent. -/
def parseUnsigned (cs : List Char) : Option Decimal := do
  let (m, rest) ← parseMantissa cs
  match rest with
  | [] => pure m
  | 'e' :: r => do pure (m.scale (← parseExponent r))
  | 'E' :: r => do pure (m.scale (← parseExponent r))
  | _ => none

/-- The PEP 515 underscore rule `float` enforces before parsing: every
underscore must sit strictly between two digits (no leading, trailing,
doubled, or sign/point/exponent-adjacent underscore). -/
def underscoresOk : List Char → Bool
  | [] => true
  | '_' :: _ => false
  | _ :: '_' :: [] => false
  | a :: '_' :: b :: rest => a.isDigit && b.isDigit && underscoresOk (b :: rest)
  | _ :: rest => underscoresOk rest

/-- The unsigned part of a `float` string: the case-insensitive words
inf, infinity, nan; otherwise a decimal literal after validating and
removing PEP 515 underscores. -/
def parseUnsignedPyFloat (cs : List Char) : Option PyFloat :=
  let low := cs.map Char.toLower
  if low = "inf".data ∨ low = "infinity".data then some PyFloat.inf
  else if low = "nan".data then some PyFloat.nan
  else if underscoresOk cs then
    (parseUnsigned (cs.filter fun c => c ≠ '_')).map PyFloat.finite
  else none

/-- Model of Python `float(s)` for an ASCII string `s`: strip
surrounding whitespace, optional sign, then inf/infinity/nan (any
case) or a decimal literal with optional exponent and PEP 515
underscores. `none` models the `ValueError` Python raises on anything
else. Python additionally accepts non-ASCII decimal digits and
whitespace; theorems about the raising behavior therefore restrict to
ASCII strings (`isAsciiString`), on which this acceptance set is
exact. -/
def pyFloatOfString (s : String) : Option PyFloat :=
  let cs := ((s.data.dropWhile isPySpace).reverse.dropWhile isPySpace).reverse
  match cs with
  | '+' :: rest => parseUnsignedPyFloat rest
  | '-' :: rest => (parseUnsignedPyFloat rest).map PyFloat.neg
  | _ => parseUnsignedPyFloat cs

/-- All characters ASCII: the domain on which `pyFloatOfString` accepts
exactly the strings `float` accepts. -/
def isAsciiString (s : String) : Bool := s.data.all fun c => c.toNat < 128

/-! ### Model of the `f"{x:.2f}"` format -/

/-- Round `a / p` (for `p > 0`) to the nearest integer, ties to even:
the rounding applied by Python float formatting. `Int.ediv`/`Int.emod`
give the floor and a nonnegative remainder for a positive divisor. -/
def roundHalfEven (a p : ℤ) : ℤ :=
  let f := Int.ediv a p
  let r := Int.emod a p
  if 2 * r < p then f
  else if p < 2 * r then f + 1
  else if Int.emod f 2 = 0 then f else f + 1

/-- Two decimal digits, left-padded with `0`. -/
def twoDigitString (n : ℕ) : String :=
  (if n < 10 then "0" else "") ++ toString n

/-- Model of `f"{x:.2f}"`: fixed two-decimal formatting of the value
`d.num / 10 ^ d.exp`. A negative value rounding to zero prints `-0.00`,
as Python does. Exact as long as the binary double and the exact
decimal round to the same hundredth, which holds for every value
appearing in this development. -/
def formatFixed2 (d : Decimal) : String :=
  let n : ℤ := roundHalfEven (d.num * 100) (((10 : ℕ) ^ d.exp : ℕ) : ℤ)
  let sign := if d.num < 0 then "-" else ""
  let m := n.natAbs
  sign ++ toString (m / 100) ++ "." ++ twoDigitString (m % 100)

/-- `f"{x:.2f}"` on a full Python float value: the non-finite values
print inf, -inf, nan (the precision is ignored for them). -/
def PyFloat.format2 : PyFloat → String
  | PyFloat.finite d => formatFixed2 d
  | PyFloat.inf => "inf"
  | PyFloat.ninf => "-inf"
  | PyFloat.nan => "nan"

/-! ### The analyzer -/

/-- Errors `analyze_token_data` can raise: `missingField f` models the
`KeyError` on an unconditional access to key `f` (the spec calls this
`MissingFieldError`), and `valueError s` the `ValueError` raised by
`float(s)` on an unparsable string. -/
inductive AnalyzeError where
  | missingField (field : String)
  | valueError (s : String)
deriving DecidableEq

/-- Line 23: `float(token["priceUsd"]) if "priceUsd" in token else 0`.
Only an absent key defaults to 0; a present but unparsable string
raises `ValueError`. -/
def priceStep (token : RawPair) : Except AnalyzeError PyFloat :=
  match token.priceUsd with
  | some s =>
    match pyFloatOfString s with
    | some q => Except.ok q
    | none => Except.error (AnalyzeError.valueError s)
  | none => Except.ok (PyFloat.finite { num := 0, exp := 0 })

/-- Line 24: `float(token["volume"]["h24"]) if "volume" in token and
"h24" in token["volume"] else 0`. `h24` is a JSON number already, so
this step cannot raise. -/
def volumeStep (token : RawPair) : Decimal :=
  match token.volume with
  | some v =>
    match v.h24 with
    | some q => q
    | none => { num := 0, exp := 0 }
  | none => { num := 0, exp := 0 }

/-- Line 26: `token["baseToken"]["name"]`, raising `KeyError` on either
missing key. -/
def nameStep (token : RawPair) : Except AnalyzeError String :=
  match token.baseToken with
  | none => Except.error (AnalyzeError.missingField "baseToken")
  | some b =>
    match b.name with
    | some n => Except.ok n
    | none => Except.error (AnalyzeError.missingField "name")

/-- Line 27: `token["baseToken"]["address"]` (the pair accesses
`baseToken` afresh for each of the two fields). -/
def addressStep (token : RawPair) : Except AnalyzeError String :=
  match token.baseToken with
  | none => Except.error (AnalyzeError.missingField "baseToken")
  | some b =>
    match b.address with
    | some a => Except.ok a
    | none => Except.error (AnalyzeError.missingField "address")

/-- One iteration of the loop body of `analyze_token_data`
(src/app/dexscreener_app.py lines 23-29), in Python evaluation order:
`price_usd`, then `volume_h24` (pure), then the dict literal accessing
name and address; the first raise wins. -/
def analyzePair (token : RawPair) : Except AnalyzeError AnalyzedRecord :=
  match priceStep token with
  | Except.error e => Except.error e
  | Except.ok price_usd =>
    match nameStep token with
    | Except.error e => Except.error e
    | Except.ok tokenName =>
      match addressStep token with
      | Except.error e => Except.error e
      | Except.ok address =>
        Except.ok { name := tokenName, ca := address,
                    description := "Price: " ++ PyFloat.format2 price_usd
                      ++ " USD, Volume: " ++ formatFixed2 (volumeStep token) }

/-- The loop of `analyze_token_data`: analyzes each pair in order,
propagating the first exception (which discards earlier appends, as
raising does in Python). -/
def analyzePairs : List RawPair → Except AnalyzeError (List AnalyzedRecord)
  | [] => Except.ok []
  | t :: ts =>
    match analyzePair t with
    | Except.error e => Except.error e
    | Except.ok r =>
      match analyzePairs ts with
      | Except.error e => Except.error e
      | Except.ok rs => Except.ok (r :: rs)

/-- `analyze_token_data` (src/app/dexscreener_app.py lines 20-30):
iterate over `token_data["pairs"][:5]`. -/
def analyze_token_data (token_data : RawMarketResponse) :
    Except AnalyzeError (List AnalyzedRecord) :=
  analyzePairs (token_data.pairs.take 5)

/-! ### The notifier -/

/-- Errors `send_telegram_message` can raise: the configuration check
(the spec calls it `ConfigurationError`) and the wrapped send failure
(`DeliveryError`). -/
inductive TelegramError where
  | configurationError
  | deliveryError (msg : String)
deriving DecidableEq

/-- The two environment variables read at notify time; `none` models an
unset variable. -/
structure Env where
  telegram_bot_token : Option String
  telegram_chat_id : Option String
deriving DecidableEq

/-- Python truthiness of an `os.getenv` result: `None` and the empty
string are falsy, every other string truthy. -/
def truthy : Option String → Bool
  | none => false
  | some s => !s.isEmpty

/-- One attempted `bot.send_message` call, as observed by the network. -/
structure TelegramCall where
  bot_token : String
  chat_id : String
  text : String
deriving DecidableEq

/-- The message composed by `send_telegram_message`
(src/app/dexscreener_app.py line 42). -/
def composeMessage (token_name ca description : String) : String :=
  "Token: " ++ token_name ++ "\nCA: " ++ ca ++ "\nDescription: " ++ description

/-- `send_telegram_message` (src/app/dexscreener_app.py lines 34-45).
`net` stands for the Telegram API: it is given the attempted call and
answers success or an error string. The second component of the result
collects the network calls attempted (empty when the configuration
check raises before any call). -/
def send_telegram_message (env : Env) (net : TelegramCall → Except String Unit)
    (token_name ca description : String) :
    Except TelegramError Unit × List TelegramCall :=
  let bot_token := env.telegram_bot_token
  let chat_id := env.telegram_chat_id
  if !truthy bot_token || !truthy chat_id then
    (Except.error TelegramError.configurationError, [])
  else
    let call : TelegramCall :=
      { bot_token := bot_token.getD "", chat_id := chat_id.getD "",
        text := composeMessage token_name ca description }
    (match net call with
     | Except.ok _ => Except.ok ()
     | Except.error e =>
       Except.error (TelegramError.deliveryError
         ("Failed to send Telegram message: " ++ e)), [call])

/-! ### The invoking shell -/

/-- The notification loop of `DexscreenerApp.fetch_and_analyze`
(src/app/dexscreener_app.py lines 78-79): one send per record, in
order, stopping at the first raised error. Collects all attempted
network calls. -/
def notifyAll (env : Env) (net : TelegramCall → Except String Unit) :
    List AnalyzedRecord → Except TelegramError Unit × List TelegramCall
  | [] => (Except.ok (), [])
  | r :: rs =>
    let s := send_telegram_message env net r.name r.ca r.description
    match s.1 with
    | Except.ok _ =>
      let step := notifyAll env net rs
      (step.1, s.2 ++ step.2)
    | Except.error e => (Except.error e, s.2)

/-- Contents of the read-only text box. -/
inductive Display where
  | text (s : String)
  | records (rs : List AnalyzedRecord)
deriving DecidableEq

/-- The two widgets mutated by the click handler. -/
structure UIState where
  status_label : String
  text_box : Display
deriving DecidableEq

/-- `str(e)` for the exceptions of the analyzer: a `KeyError` prints its
key quoted, a `ValueError` of `float` prints the offending string. -/
def analyzeErrorMessage : AnalyzeError → String
  | AnalyzeError.missingField f => "\x27" ++ f ++ "\x27"
  | AnalyzeError.valueError s =>
    "could not convert string to float: \x27" ++ s ++ "\x27"

/-- `str(e)` for the exceptions of the notifier. -/
def telegramErrorMessage : TelegramError → String
  | TelegramError.configurationError =>
    "Telegram bot token or chat ID not found in environment variables"
  | TelegramError.deliveryError m => m

/-- `DexscreenerApp.fetch_and_analyze` (src/app/dexscreener_app.py lines
70-83), from the point where the fetch has returned: `fetch_result` is
the outcome of `fetch_token_data()` (its error already carries the
"Failed to fetch token data: " wrapper from line 16). Returns the final
state of the two widgets and every network call attempted during the
run. -/
def fetch_and_analyze (fetch_result : Except String RawMarketResponse)
    (env : Env) (net : TelegramCall → Except String Unit) :
    UIState × List TelegramCall :=
  match fetch_result with
  | Except.error e =>
    ({ status_label := "Error occurred", text_box := Display.text ("Error: " ++ e) }, [])
  | Except.ok token_data =>
    match analyze_token_data token_data with
    | Except.error e =>
      ({ status_label := "Error occurred",
         text_box := Display.text ("Error: " ++ analyzeErrorMessage e) }, [])
    | Except.ok analyzed_data =>
      match notifyAll env net analyzed_data with
      | (Except.ok _, calls) =>
        ({ status_label := "Done", text_box := Display.records analyzed_data }, calls)
      | (Except.error e, calls) =>
        ({ status_label := "Error occurred",
           text_box := Display.text ("Error: " ++ telegramErrorMessage e) }, calls)

set_option maxRecDepth 8192

/-! ### Helper lemmas about the analyzer loop -/

theorem analyzePairs_ok_forall₂ {l : List RawPair} {rs : List AnalyzedRecord}
    (h : analyzePairs l = Except.ok rs) :
    List.Forall₂ (fun t r => analyzePair t = Except.ok r) l rs := by
  induction l generalizing rs with
  | nil =>
    simp only [analyzePairs] at h
    cases h
    exact List.Forall₂.nil
  | cons t ts ih =>
    simp only [analyzePairs] at h
    cases hp : analyzePair t with
    | error e => rw [hp] at h; cases h
    | ok r =>
      rw [hp] at h
      cases hq : analyzePairs ts with
      | error e => rw [hq] at h; cases h
      | ok rs2 =>
        rw [hq] at h
        cases h
        exact List.Forall₂.cons hp (ih hq)

theorem analyzePairs_error_of_mem {l : List RawPair} {t : RawPair}
    (hmem : t ∈ l) (hbad : ∀ r, analyzePair t ≠ Except.ok r) :
    ∀ rs, analyzePairs l ≠ Except.ok rs := by
  induction l with
  | nil => cases hmem
  | cons u us ih =>
    intro rs h
    simp only [analyzePairs] at h
    cases hp : analyzePair u with
    | error e => rw [hp] at h; cases h
    | ok r =>
      rw [hp] at h
      cases hq : analyzePairs us with
      | error e => rw [hq] at h; cases h
      | ok rs2 =>
        rcases List.mem_cons.mp hmem with heq | hmem2
        · exact hbad r (heq ▸ hp)
        · exact ih hmem2 rs2 hq

/-! ### Concrete inputs used by witnesses and counterexamples -/

/-- A pair with every field of interest present. -/
def samplePair (nm addr price : String) (vol : Decimal) : RawPair :=
  { baseToken := some { name := some nm, address := some addr },
    priceUsd := some price, volume := some { h24 := some vol } }

/-- A response with six complete pairs. -/
def sixPairsResponse : RawMarketResponse :=
  { pairs := [samplePair "T1" "A1" "1" { num := 1, exp := 0 },
              samplePair "T2" "A2" "1" { num := 1, exp := 0 },
              samplePair "T3" "A3" "1" { num := 1, exp := 0 },
              samplePair "T4" "A4" "1" { num := 1, exp := 0 },
              samplePair "T5" "A5" "1" { num := 1, exp := 0 },
              samplePair "T6" "A6" "1" { num := 1, exp := 0 }] }

/-- The records the analyzer produces for `sixPairsResponse`. -/
def fiveRecords : List AnalyzedRecord :=
  ["T1", "T2", "T3", "T4", "T5"].zip ["A1", "A2", "A3", "A4", "A5"] |>.map
    fun p => { name := p.1, ca := p.2,
               description := "Price: 1.00 USD, Volume: 1.00" }

/-! ### Claim C1 -/

/-- Claim C1: whenever `analyze_token_data` returns records, their number
is `min 5 (length of pairs)` — in particular exactly 5 when `pairs` has
more than 5 entries, and never more than 5 — and the `i`-th record is
the analysis of the `i`-th entry of `pairs`, in original order. -/
theorem analyze_takes_first_five (td : RawMarketResponse)
    (rs : List AnalyzedRecord) (h : analyze_token_data td = Except.ok rs) :
    rs.length = min 5 td.pairs.length ∧
    ∀ i (hi : i < rs.length) (hp : i < td.pairs.length),
      analyzePair (td.pairs.get ⟨i, hp⟩) = Except.ok (rs.get ⟨i, hi⟩) := by
  have hf := analyzePairs_ok_forall₂ h
  have hlen := hf.length_eq
  rw [List.length_take] at hlen
  refine ⟨hlen.symm, ?_⟩
  intro i hi hp
  have hti : i < (td.pairs.take 5).length := by
    rw [List.length_take]; omega
  have hget := hf.get hti hi
  rwa [show (td.pairs.take 5).get ⟨i, hti⟩ = td.pairs.get ⟨i, hp⟩ from by
    simp [List.getElem_take']] at hget

/-- Witness for C1 at a concrete six-pair response. -/
theorem analyze_takes_first_five_witness :
    analyze_token_data sixPairsResponse = Except.ok fiveRecords ∧
    fiveRecords.length = min 5 sixPairsResponse.pairs.length :=
  ⟨by rfl, (analyze_takes_first_five sixPairsResponse fiveRecords (by rfl)).1⟩

/-! ### Claim C2 -/

/-- A pair whose `priceUsd` key is present but whose value is not
parsable as a number. -/
def unparsablePricePair : RawPair :=
  { baseToken := some { name := some "Tok", address := some "0xA" },
    priceUsd := some "abc", volume := some { h24 := some { num := 5, exp := 0 } } }

/-- Counterexample to claim C2 as stated: on a pair whose `priceUsd` is
present but unparsable, `analyze_token_data` raises the `ValueError` of
`float` instead of degrading the price to 0 and producing a record —
only an absent key takes the 0 default. -/
theorem unparsable_price_raises :
    analyze_token_data { pairs := [unparsablePricePair] } =
      Except.error (AnalyzeError.valueError "abc") := by rfl

/-- Claim C2 (amended): for every pair whose `priceUsd` is present as
an ASCII string that `float` rejects — not an optionally signed decimal
literal (underscores allowed only between digits) nor inf/infinity/nan
in any case, up to surrounding whitespace — the analyzer raises
`ValueError` for that pair; the degrade-to-0 path applies only to an
absent key. The ASCII restriction marks the domain on which
`pyFloatOfString` rejects exactly where `float` raises. -/
theorem unparsable_price_value_error (token : RawPair) (s : String)
    (_hascii : isAsciiString s = true)
    (hs : token.priceUsd = some s) (hbad : pyFloatOfString s = none) :
    analyzePair token = Except.error (AnalyzeError.valueError s) := by
  simp only [analyzePair, priceStep, hs, hbad]

/-- Witness for the amended C2 at a concrete pair. -/
theorem unparsable_price_value_error_witness :
    unparsablePricePair.priceUsd = some "abc" ∧
    isAsciiString "abc" = true ∧
    pyFloatOfString "abc" = none ∧
    analyzePair unparsablePricePair = Except.error (AnalyzeError.valueError "abc") :=
  ⟨by rfl, by rfl, by rfl,
    unparsable_price_value_error unparsablePricePair "abc" (by rfl) (by rfl) (by rfl)⟩

/-! ### Claim C3 -/

theorem analyzePair_ok_description {token : RawPair} {r : AnalyzedRecord}
    (h : analyzePair token = Except.ok r) :
    ∃ p, priceStep token = Except.ok p ∧
      r.description = "Price: " ++ PyFloat.format2 p ++ " USD, Volume: "
        ++ formatFixed2 (volumeStep token) := by
  unfold analyzePair at h
  cases hp : priceStep token with
  | error e => rw [hp] at h; cases h
  | ok p =>
    rw [hp] at h
    cases hn : nameStep token with
    | error e => rw [hn] at h; cases h
    | ok nm =>
      rw [hn] at h
      cases ha : addressStep token with
      | error e => rw [ha] at h; cases h
      | ok ad =>
        rw [ha] at h
        cases h
        exact ⟨p, rfl, rfl⟩

/-- Claim C3: in any record the analyzer produces, a pair without the
`priceUsd` key yields a description containing `Price: 0.00 USD`, and a
pair without the nested `volume.h24` path yields a description
containing `Volume: 0.00` — missing numeric fields substitute 0. -/
theorem missing_numeric_fields_default (token : RawPair) (r : AnalyzedRecord)
    (h : analyzePair token = Except.ok r) :
    (token.priceUsd = none →
      ∃ rest, r.description = "Price: 0.00 USD" ++ rest) ∧
    ((token.volume = none ∨ ∃ v, token.volume = some v ∧ v.h24 = none) →
      ∃ front, r.description = front ++ "Volume: 0.00") := by
  obtain ⟨p, hp, hdesc⟩ := analyzePair_ok_description h
  constructor
  · intro hnone
    have hp0 : p = PyFloat.finite { num := 0, exp := 0 } := by
      unfold priceStep at hp
      rw [hnone] at hp
      cases hp
      rfl
    refine ⟨", Volume: " ++ formatFixed2 (volumeStep token), ?_⟩
    rw [hdesc, hp0]
    rfl
  · intro hvol
    have hv : volumeStep token = { num := 0, exp := 0 } := by
      rcases hvol with hnone | ⟨v, hv, hh⟩
      · simp only [volumeStep, hnone]
      · simp only [volumeStep, hv, hh]
    refine ⟨"Price: " ++ PyFloat.format2 p ++ " USD, ", ?_⟩
    rw [hdesc, hv]
    simp only [String.append_assoc]
    rfl

/-- A pair with both numeric fields absent (name and address present). -/
def noNumericsPair : RawPair :=
  { baseToken := some { name := some "Tok", address := some "0xA" },
    priceUsd := none, volume := none }

/-- Witness for C3 at a concrete pair lacking both numeric fields. -/
theorem missing_numeric_fields_default_witness :
    analyzePair noNumericsPair = Except.ok
      { name := "Tok", ca := "0xA",
        description := "Price: 0.00 USD, Volume: 0.00" } ∧
    noNumericsPair.priceUsd = none ∧
    (∃ rest,
      ({ name := "Tok", ca := "0xA",
         description := "Price: 0.00 USD, Volume: 0.00" } :
        AnalyzedRecord).description = "Price: 0.00 USD" ++ rest) ∧
    (∃ front,
      ({ name := "Tok", ca := "0xA",
         description := "Price: 0.00 USD, Volume: 0.00" } :
        AnalyzedRecord).description = front ++ "Volume: 0.00") :=
  ⟨by rfl, by rfl,
    (missing_numeric_fields_default noNumericsPair _ (by rfl)).1 rfl,
    (missing_numeric_fields_default noNumericsPair _ (by rfl)).2 (Or.inl rfl)⟩

/-! ### Claim C4 -/

/-- Claim C4: a response with an empty `pairs` sequence analyzes to the
empty record sequence, and a click-handler run on it performs zero
notification calls. -/
theorem empty_pairs_no_notifications (td : RawMarketResponse) (env : Env)
    (net : TelegramCall → Except String Unit) (h : td.pairs = []) :
    analyze_token_data td = Except.ok [] ∧
    (fetch_and_analyze (Except.ok td) env net).2 = [] := by
  have ha : analyze_token_data td = Except.ok [] := by
    unfold analyze_token_data
    rw [h]
    rfl
  refine ⟨ha, ?_⟩
  simp [fetch_and_analyze, ha, notifyAll]

/-- Environment with both variables set to nonempty values. -/
def goodEnv : Env :=
  { telegram_bot_token := some "tok123", telegram_chat_id := some "chat456" }

/-- A network that accepts every call. -/
def okNet : TelegramCall → Except String Unit := fun _ => Except.ok ()

/-- Witness for C4 at the concrete empty response. -/
theorem empty_pairs_no_notifications_witness :
    ({ pairs := [] } : RawMarketResponse).pairs = [] ∧
    analyze_token_data { pairs := [] } = Except.ok [] ∧
    (fetch_and_analyze (Except.ok { pairs := [] }) goodEnv okNet).2 = [] :=
  ⟨rfl,
    (empty_pairs_no_notifications { pairs := [] } goodEnv okNet rfl).1,
    (empty_pairs_no_notifications { pairs := [] } goodEnv okNet rfl).2⟩

/-! ### Claim C5 -/

/-- Claim C5: whenever the notifier reaches the send, the composed text
is exactly the three-line message
`Token: {name}\nCA: {ca}\nDescription: {description}`; in particular on
the example record the text is exactly
`Token: FooCoin\nCA: 0xABC\nDescription: Price: 1.00 USD, Volume: 2.00`. -/
theorem notifier_message_exact (env : Env)
    (net : TelegramCall → Except String Unit)
    (hb : truthy env.telegram_bot_token = true)
    (hc : truthy env.telegram_chat_id = true) :
    (∀ nm ca d, ∀ call ∈ (send_telegram_message env net nm ca d).2,
      call.text = "Token: " ++ nm ++ "\nCA: " ++ ca ++ "\nDescription: " ++ d) ∧
    (send_telegram_message env net "FooCoin" "0xABC"
        "Price: 1.00 USD, Volume: 2.00").2.map TelegramCall.text =
      ["Token: FooCoin\nCA: 0xABC\nDescription: Price: 1.00 USD, Volume: 2.00"] := by
  have hsnd : ∀ nm ca d, (send_telegram_message env net nm ca d).2 =
      [{ bot_token := env.telegram_bot_token.getD "",
         chat_id := env.telegram_chat_id.getD "",
         text := composeMessage nm ca d }] := by
    intro nm ca d
    simp [send_telegram_message, hb, hc]
  constructor
  · intro nm ca d call hcall
    rw [hsnd, List.mem_singleton] at hcall
    subst hcall
    rfl
  · rw [hsnd]
    rfl

/-- Witness for C5 at the example record of the spec. -/
theorem notifier_message_exact_witness :
    truthy goodEnv.telegram_bot_token = true ∧
    truthy goodEnv.telegram_chat_id = true ∧
    (send_telegram_message goodEnv okNet "FooCoin" "0xABC"
        "Price: 1.00 USD, Volume: 2.00").2.map TelegramCall.text =
      ["Token: FooCoin\nCA: 0xABC\nDescription: Price: 1.00 USD, Volume: 2.00"] :=
  ⟨rfl, rfl, (notifier_message_exact goodEnv okNet rfl rfl).2⟩

/-! ### Claim C6 -/

/-- Claim C6: for a pair with `priceUsd = "1234.5"`,
`volume.h24 = 98765.4321` and any present name and address, the
description is exactly `Price: 1234.50 USD, Volume: 98765.43` — fixed
two-decimal formatting of both numbers. -/
theorem two_decimal_description (nm addr : String) :
    (analyzePair (samplePair nm addr "1234.5" { num := 987654321, exp := 4 })).map
        AnalyzedRecord.description =
      Except.ok "Price: 1234.50 USD, Volume: 98765.43" ∧
    (analyze_token_data
        { pairs := [samplePair nm addr "1234.5" { num := 987654321, exp := 4 }] }).map
        (List.map AnalyzedRecord.description) =
      Except.ok ["Price: 1234.50 USD, Volume: 98765.43"] := by
  have h1 : pyFloatOfString "1234.5" =
      some (PyFloat.finite { num := 12345, exp := 1 }) := by rfl
  have h2 : PyFloat.format2 (PyFloat.finite { num := 12345, exp := 1 }) =
      "1234.50" := by rfl
  have h3 : formatFixed2 { num := 987654321, exp := 4 } = "98765.43" := by rfl
  constructor
  · simp only [samplePair, analyzePair, priceStep, nameStep, addressStep,
      volumeStep, h1, h2, h3, Except.map]
    rfl
  · simp only [analyze_token_data, List.take, analyzePairs, samplePair,
      analyzePair, priceStep, nameStep, addressStep, volumeStep, h1, h2, h3,
      Except.map, List.map]
    rfl

/-! ### Claim C7 -/

/-- Decides whether an analyzer outcome is the `MissingFieldError`
exception. -/
def isMissingFieldError {α : Type} : Except AnalyzeError α → Bool
  | Except.error (AnalyzeError.missingField _) => true
  | _ => false

/-- True when the `baseToken.name` or `baseToken.address` path is absent
from the pair. -/
def missingBaseField (t : RawPair) : Bool :=
  match t.baseToken with
  | none => true
  | some b => b.name.isNone || b.address.isNone

/-- True when the price field cannot itself raise: `priceUsd` absent,
or accepted by the `float` grammar (decimal literal with PEP 515
underscores, or inf/infinity/nan; `float` returns a value — possibly
non-finite — on all of these without raising). -/
def priceParses (t : RawPair) : Bool :=
  match t.priceUsd with
  | none => true
  | some s => (pyFloatOfString s).isSome

/-- A pair whose `baseToken.name` is absent and whose `priceUsd` is
present but unparsable. -/
def badPriceNoNamePair : RawPair :=
  { baseToken := some { name := none, address := some "0xB" },
    priceUsd := some "xyz", volume := none }

/-- Counterexample to claim C7 as stated: this pair's `baseToken.name`
is absent, yet `analyze_token_data` fails with the `ValueError` of its
unparsable `priceUsd`, not with `MissingFieldError`, because the price
field is evaluated first. -/
theorem missing_name_without_missing_field_error :
    badPriceNoNamePair.baseToken.map BaseToken.name = some none ∧
    analyze_token_data { pairs := [badPriceNoNamePair] } =
      Except.error (AnalyzeError.valueError "xyz") ∧
    isMissingFieldError (analyze_token_data { pairs := [badPriceNoNamePair] }) = false :=
  ⟨rfl, rfl, rfl⟩

theorem priceStep_ok_of_parses {t : RawPair} (h : priceParses t = true) :
    ∃ p, priceStep t = Except.ok p := by
  unfold priceParses at h
  unfold priceStep
  cases hpu : t.priceUsd with
  | none => exact ⟨_, rfl⟩
  | some s =>
    rw [hpu] at h
    have h2 : (pyFloatOfString s).isSome = true := h
    cases hf : pyFloatOfString s with
    | none => rw [hf] at h2; cases h2
    | some q =>
      refine ⟨q, ?_⟩
      show (match pyFloatOfString s with
            | some q => Except.ok q
            | none => Except.error (AnalyzeError.valueError s)) = Except.ok q
      rw [hf]

theorem analyzePair_ok_steps {t : RawPair} {r : AnalyzedRecord}
    (h : analyzePair t = Except.ok r) :
    (∃ p, priceStep t = Except.ok p) ∧ (∃ nm, nameStep t = Except.ok nm) ∧
      ∃ ad, addressStep t = Except.ok ad := by
  unfold analyzePair at h
  cases hp : priceStep t with
  | error e => rw [hp] at h; cases h
  | ok p =>
    rw [hp] at h
    cases hn : nameStep t with
    | error e => rw [hn] at h; cases h
    | ok nm =>
      rw [hn] at h
      cases ha : addressStep t with
      | error e => rw [ha] at h; cases h
      | ok ad => exact ⟨⟨p, rfl⟩, ⟨nm, rfl⟩, ⟨ad, rfl⟩⟩

theorem nameStep_ok_name {t : RawPair} {b : BaseToken} {nm : String}
    (hbt : t.baseToken = some b) (hn : nameStep t = Except.ok nm) :
    b.name = some nm := by
  unfold nameStep at hn
  rw [hbt] at hn
  have hn2 : (match b.name with
              | some n => Except.ok n
              | none => Except.error (AnalyzeError.missingField "name")) =
      Except.ok nm := hn
  cases hbn : b.name with
  | none => rw [hbn] at hn2; cases hn2
  | some x => rw [hbn] at hn2; cases hn2; rfl

theorem addressStep_ok_address {t : RawPair} {b : BaseToken} {ad : String}
    (hbt : t.baseToken = some b) (ha : addressStep t = Except.ok ad) :
    b.address = some ad := by
  unfold addressStep at ha
  rw [hbt] at ha
  have ha2 : (match b.address with
              | some a => Except.ok a
              | none => Except.error (AnalyzeError.missingField "address")) =
      Except.ok ad := ha
  cases hba : b.address with
  | none => rw [hba] at ha2; cases ha2
  | some y => rw [hba] at ha2; cases ha2; rfl

theorem analyzePair_fails_of_missingBaseField {t : RawPair}
    (hmiss : missingBaseField t = true) : ∀ r, analyzePair t ≠ Except.ok r := by
  intro r h
  obtain ⟨⟨p, hp⟩, ⟨nm, hn⟩, ⟨ad, ha⟩⟩ := analyzePair_ok_steps h
  unfold missingBaseField at hmiss
  cases hbt : t.baseToken with
  | none => simp [nameStep, hbt] at hn
  | some b =>
    rw [hbt] at hmiss
    have hmiss2 : (b.name.isNone || b.address.isNone) = true := hmiss
    rw [nameStep_ok_name hbt hn, addressStep_ok_address hbt ha] at hmiss2
    cases hmiss2

/-- Claim C7 (amended): whenever a pair in the selected five-entry
prefix lacks `baseToken.name` or `baseToken.address`,
`analyze_token_data` fails (no default is substituted for these two
fields); analyzing that pair raises `MissingFieldError` itself provided
its `priceUsd` does not raise first — absent, or accepted by `float`
(an optionally signed decimal literal with underscores only between
digits, or inf/infinity/nan in any case). A present `priceUsd` that
`float` rejects raises `ValueError` instead, as C2 records. -/
theorem missing_base_fields_fail (td : RawMarketResponse) (t : RawPair)
    (hmem : t ∈ td.pairs.take 5) (hmiss : missingBaseField t = true) :
    (∀ rs, analyze_token_data td ≠ Except.ok rs) ∧
    (priceParses t = true → isMissingFieldError (analyzePair t) = true) := by
  constructor
  · exact fun rs =>
      analyzePairs_error_of_mem hmem (analyzePair_fails_of_missingBaseField hmiss) rs
  · intro hpp
    obtain ⟨p, hp⟩ := priceStep_ok_of_parses hpp
    cases hbt : t.baseToken with
    | none =>
      have hn : nameStep t = Except.error (AnalyzeError.missingField "baseToken") := by
        simp [nameStep, hbt]
      simp [analyzePair, isMissingFieldError, hp, hn]
    | some b =>
      unfold missingBaseField at hmiss
      rw [hbt] at hmiss
      have hmiss2 : (b.name.isNone || b.address.isNone) = true := hmiss
      cases hbn : b.name with
      | none =>
        have hn : nameStep t = Except.error (AnalyzeError.missingField "name") := by
          simp [nameStep, hbt, hbn]
        simp [analyzePair, isMissingFieldError, hp, hn]
      | some x =>
        cases hba : b.address with
        | none =>
          have hn : nameStep t = Except.ok x := by simp [nameStep, hbt, hbn]
          have ha : addressStep t = Except.error (AnalyzeError.missingField "address") := by
            simp [addressStep, hbt, hba]
          simp [analyzePair, isMissingFieldError, hp, hn, ha]
        | some y =>
          rw [hbn, hba] at hmiss2
          cases hmiss2

/-- A pair lacking only `baseToken.address`, with a parsable price. -/
def noAddressPair : RawPair :=
  { baseToken := some { name := some "Tok", address := none },
    priceUsd := some "1.5", volume := none }

/-- Witness for the amended C7 at a concrete pair without an address. -/
theorem missing_base_fields_fail_witness :
    noAddressPair ∈ ({ pairs := [noAddressPair] } : RawMarketResponse).pairs.take 5 ∧
    missingBaseField noAddressPair = true ∧
    priceParses noAddressPair = true ∧
    isMissingFieldError (analyzePair noAddressPair) = true :=
  ⟨by decide, rfl, rfl,
    (missing_base_fields_fail { pairs := [noAddressPair] } noAddressPair
      (by decide) rfl).2 rfl⟩

/-! ### Claim C8 -/

theorem send_config_error_of_falsy {env : Env}
    (hcond : (!truthy env.telegram_bot_token || !truthy env.telegram_chat_id) = true)
    (net : TelegramCall → Except String Unit) (nm ca d : String) :
    send_telegram_message env net nm ca d =
      (Except.error TelegramError.configurationError, []) := by
  simp [send_telegram_message, hcond]

theorem notifyAll_no_calls_of_falsy {env : Env}
    (hcond : (!truthy env.telegram_bot_token || !truthy env.telegram_chat_id) = true)
    (net : TelegramCall → Except String Unit) (rs : List AnalyzedRecord) :
    (notifyAll env net rs).2 = [] := by
  cases rs with
  | nil => rfl
  | cons r rs2 =>
    simp [notifyAll, send_config_error_of_falsy hcond net r.name r.ca r.description]

/-- Claim C8: with `TELEGRAM_BOT_TOKEN` (or `TELEGRAM_CHAT_ID`) unset,
`send_telegram_message` fails with `ConfigurationError` before
attempting any network call, and consequently an entire click-handler
run attempts no network call at all. -/
theorem unset_env_aborts (env : Env) (net : TelegramCall → Except String Unit)
    (nm ca d : String) (fr : Except String RawMarketResponse)
    (h : env.telegram_bot_token = none ∨ env.telegram_chat_id = none) :
    send_telegram_message env net nm ca d =
      (Except.error TelegramError.configurationError, []) ∧
    (fetch_and_analyze fr env net).2 = [] := by
  have hcond : (!truthy env.telegram_bot_token || !truthy env.telegram_chat_id) = true := by
    rcases h with h | h <;> simp [h, truthy]
  refine ⟨send_config_error_of_falsy hcond net nm ca d, ?_⟩
  unfold fetch_and_analyze
  cases fr with
  | error e => rfl
  | ok td =>
    cases hat : analyze_token_data td with
    | error e => simp [hat]
    | ok rs =>
      have hcalls := notifyAll_no_calls_of_falsy hcond net rs
      rcases hna : notifyAll env net rs with ⟨res, calls⟩
      rw [hna] at hcalls
      cases res <;> simp_all

/-- Environment with both variables unset. -/
def unsetEnv : Env := { telegram_bot_token := none, telegram_chat_id := none }

/-- Witness for C8 at a concrete unset environment and six-pair fetch. -/
theorem unset_env_aborts_witness :
    unsetEnv.telegram_bot_token = none ∧
    send_telegram_message unsetEnv okNet "FooCoin" "0xABC" "d" =
      (Except.error TelegramError.configurationError, []) ∧
    (fetch_and_analyze (Except.ok sixPairsResponse) unsetEnv okNet).2 = [] :=
  ⟨rfl,
    (unset_env_aborts unsetEnv okNet "FooCoin" "0xABC" "d"
      (Except.ok sixPairsResponse) (Or.inl rfl)).1,
    (unset_env_aborts unsetEnv okNet "FooCoin" "0xABC" "d"
      (Except.ok sixPairsResponse) (Or.inl rfl)).2⟩

/-! ### Claim C9 -/

/-- Claim C9: the notification loop handles one record at a time,
strictly sequentially, in the order the analyzer produced them. On full
success the attempted calls are exactly the per-record calls
concatenated in that order; when a notification fails with error `e`
the record list splits as `pre ++ fail :: post` where every record of
`pre` was sent successfully, `fail` is the failing record, and the
attempted calls stop with `fail` — nothing of `post` is ever sent. -/
theorem notifications_sequential (env : Env)
    (net : TelegramCall → Except String Unit) (rs : List AnalyzedRecord) :
    ((notifyAll env net rs).1 = Except.ok () →
      (notifyAll env net rs).2 =
        (rs.map fun r =>
          (send_telegram_message env net r.name r.ca r.description).2).flatten) ∧
    (∀ e, (notifyAll env net rs).1 = Except.error e →
      ∃ pre fail post, rs = pre ++ fail :: post ∧
        (∀ p ∈ pre,
          (send_telegram_message env net p.name p.ca p.description).1 =
            Except.ok ()) ∧
        (send_telegram_message env net fail.name fail.ca fail.description).1 =
          Except.error e ∧
        (notifyAll env net rs).2 =
          (pre.map fun p =>
            (send_telegram_message env net p.name p.ca p.description).2).flatten
          ++ (send_telegram_message env net fail.name fail.ca
                fail.description).2) := by
  induction rs with
  | nil =>
    constructor
    · intro _; rfl
    · intro e he; cases he
  | cons r rs2 ih =>
    cases hs : (send_telegram_message env net r.name r.ca r.description).1 with
    | ok u =>
      cases u
      have hstep : notifyAll env net (r :: rs2) =
          ((notifyAll env net rs2).1,
           (send_telegram_message env net r.name r.ca r.description).2
             ++ (notifyAll env net rs2).2) := by
        simp [notifyAll, hs]
      constructor
      · intro hok
        rw [hstep] at hok ⊢
        simp only [List.map_cons, List.flatten_cons]
        rw [ih.1 hok]
      · intro e he
        rw [hstep] at he
        obtain ⟨pre, fail, post, hsplit, hpre, hfail, hcalls⟩ := ih.2 e he
        refine ⟨r :: pre, fail, post, by rw [hsplit, List.cons_append], ?_, hfail, ?_⟩
        · intro p hp
          rcases List.mem_cons.mp hp with rfl | hp2
          · exact hs
          · exact hpre p hp2
        · rw [hstep]
          simp only [List.map_cons, List.flatten_cons]
          rw [hcalls, List.append_assoc]
    | error e0 =>
      have hstep : notifyAll env net (r :: rs2) =
          (Except.error e0,
           (send_telegram_message env net r.name r.ca r.description).2) := by
        simp [notifyAll, hs]
      constructor
      · intro hok
        rw [hstep] at hok
        cases hok
      · intro e he
        rw [hstep] at he
        injection he with he2
        subst he2
        refine ⟨[], r, rs2, rfl, ?_, hs, ?_⟩
        · intro p hp; cases hp
        · rw [hstep]
          simp

/-- Witness for C9 on the success side, at the five analyzed records of
the six-pair response. -/
theorem notifications_sequential_witness :
    (notifyAll goodEnv okNet fiveRecords).1 = Except.ok () ∧
    (notifyAll goodEnv okNet fiveRecords).2 =
      (fiveRecords.map fun r =>
        (send_telegram_message goodEnv okNet r.name r.ca r.description).2).flatten :=
  ⟨by rfl, (notifications_sequential goodEnv okNet fiveRecords).1 (by rfl)⟩

/-! ### Claim C10 -/

/-- Claim C10: an environment variable set to the empty string behaves
exactly like an unset one — the truthiness test
`if not bot_token or not chat_id` makes `send_telegram_message` raise
`ConfigurationError` with no network call attempted. -/
theorem empty_string_env_config_error (env : Env)
    (net : TelegramCall → Except String Unit) (nm ca d : String)
    (h : env.telegram_bot_token = some "" ∨ env.telegram_chat_id = some "") :
    send_telegram_message env net nm ca d =
      (Except.error TelegramError.configurationError, []) := by
  have hcond : (!truthy env.telegram_bot_token || !truthy env.telegram_chat_id) = true := by
    rcases h with h | h
    · simp [h, truthy]
      exact Or.inl rfl
    · simp [h, truthy]
      exact Or.inr rfl
  exact send_config_error_of_falsy hcond net nm ca d

/-- Environment whose bot-token variable is set to the empty string. -/
def emptyTokenEnv : Env :=
  { telegram_bot_token := some "", telegram_chat_id := some "chat456" }

/-- Witness for C10 at a concrete empty-string environment. -/
theorem empty_string_env_config_error_witness :
    emptyTokenEnv.telegram_bot_token = some "" ∧
    send_telegram_message emptyTokenEnv okNet "FooCoin" "0xABC" "d" =
      (Except.error TelegramError.configurationError, []) :=
  ⟨rfl,
    empty_string_env_config_error emptyTokenEnv okNet "FooCoin" "0xABC" "d"
      (Or.inl rfl)⟩

end Dexscreener
